import Mathlib

/-!
Verification of the authentication service: a shallow embedding of
`src/authentication-service/data/models.go` (User store, bcrypt-backed
password handling) and of the HTTP handlers `Authenticate`, `Register`
and `logRequest` from the handlers file of the authentication service.

Machine integers are modelled as `Nat` (ids, timestamps in nanoseconds),
Go strings as `String`, fallible calls as `Except`/`Option`.  Each store
operation takes the latency of its underlying database call as an
explicit `Nat` parameter so that the deadline-context behaviour is
expressible.
-/

namespace Auth

/-- Modelled from the spec: the bcrypt library (`golang.org/x/crypto/bcrypt`)
is external to the repository.  A password-column value is either a raw
string (plaintext in transit, as set by `Register` before `Insert` hashes
it) or a self-describing bcrypt blob embedding salt and cost (§4.1: the
hash "embeds salt and cost factor"; equal passwords with different salts
give different blobs).  Blobs are one-way: only `bcryptCompareHashAndPassword`
inspects the payload. -/
inductive PwVal where
  | plain (s : String)
  | hashed (salt cost : Nat) (pw : String)
deriving DecidableEq, Repr

/-- The textual content of a Go password string: the raw string itself, or
the printed form of a bcrypt blob. -/
def PwVal.content : PwVal → String
  | .plain s => s
  | .hashed salt cost pw => "$2a$" ++ toString cost ++ "$" ++ toString salt ++ "$" ++ pw

/-- True exactly on Password-Hasher output (a bcrypt blob), never on raw input. -/
def PwVal.isHashed : PwVal → Bool
  | .hashed _ _ _ => true
  | .plain _ => false

/-- Errors of the modelled bcrypt library: `ErrMismatchedHashAndPassword`
for a wrong plaintext, `ErrHashTooShort` for input that is not a bcrypt blob. -/
inductive BcryptErr where
  | mismatchedHashAndPassword
  | hashTooShort
deriving DecidableEq, Repr

/-- Modelled from the spec: `bcrypt.GenerateFromPassword` (§4.1 `Hash`):
produces a salted, self-describing blob from the plaintext. -/
def bcryptGenerateFromPassword (salt cost : Nat) (password : String) : PwVal :=
  PwVal.hashed salt cost password

/-- Modelled from the spec: `bcrypt.CompareHashAndPassword` (§4.1 `Verify`):
`none` iff the plaintext matches the blob; a mismatch error for a wrong
plaintext; a distinct malformed-hash error when the first argument is not
a bcrypt blob. -/
def bcryptCompareHashAndPassword (hashedPassword : PwVal) (password : String) : Option BcryptErr :=
  match hashedPassword with
  | .hashed _ _ pw => if password = pw then none else some BcryptErr.mismatchedHashAndPassword
  | .plain _ => some BcryptErr.hashTooShort

/-- `data.User` (models.go lines 36-45), with its json tags:
`Password` carries tag `json:"-"`. -/
structure User where
  ID : Nat
  Email : String
  FirstName : String
  LastName : String
  Password : PwVal
  Active : Bool
  CreatedAt : Nat
  UpdatedAt : Nat
deriving DecidableEq, Repr

/-- One row of the relational table
`users(id, email, first_name, last_name, password, user_active, created_at, updated_at)`. -/
structure Row where
  id : Nat
  email : String
  first_name : String
  last_name : String
  password : PwVal
  user_active : Bool
  created_at : Nat
  updated_at : Nat
deriving DecidableEq, Repr

/-- The relational store: its rows plus the id the next insert will be assigned
(`returning id`). -/
structure Db where
  rows : List Row
  nextId : Nat
deriving DecidableEq, Repr

/-- `time.Second` in nanoseconds. -/
def timeSecond : Nat := 1000000000

/-- `const dbTimeOut = time.Second * 3` (models.go line 13). -/
def dbTimeOut : Nat := timeSecond * 3

/-- Store errors surfaced to callers: context-deadline expiry, `sql.ErrNoRows`
mapped to a not-found error, the uniqueness violation on a duplicate
email (§4.2 `Conflict`), anything else. -/
inductive SqlErr where
  | timeout
  | notFound
  | conflict
  | other
deriving DecidableEq, Repr

/-- `rows.Scan`: a table row read back into the `data.User` struct. -/
def rowToUser (r : Row) : User :=
  { ID := r.id, Email := r.email, FirstName := r.first_name, LastName := r.last_name,
    Password := r.password, Active := r.user_active,
    CreatedAt := r.created_at, UpdatedAt := r.updated_at }

/-- Insertion step of the `order by last_name` sort used by `GetAll`. -/
def insertRowByLastName (r : Row) : List Row → List Row
  | [] => [r]
  | x :: xs => if r.last_name ≤ x.last_name then r :: x :: xs else x :: insertRowByLastName r xs

/-- `order by last_name`: the rows sorted by last name ascending. -/
def orderByLastName (rs : List Row) : List Row :=
  rs.foldr insertRowByLastName []

/-- `GetAll` (models.go lines 48-84): its own `dbTimeOut` deadline context;
on expiry the query aborts with `Timeout`, otherwise all users sorted by
last name. -/
def GetAll (db : Db) (lat : Nat) : Except SqlErr (List User) :=
  if dbTimeOut ≤ lat then Except.error SqlErr.timeout
  else Except.ok ((orderByLastName db.rows).map rowToUser)

/-- `GetByEmail` (models.go lines 88-136): its own deadline context; selects
the row whose `email` column equals the argument; `sql.ErrNoRows` becomes
the not-found error ("no user found with that email"). -/
def GetByEmail (db : Db) (lat : Nat) (email : String) : Except SqlErr User :=
  if dbTimeOut ≤ lat then Except.error SqlErr.timeout
  else
    match db.rows.find? (fun r => r.email == email) with
    | none => Except.error SqlErr.notFound
    | some r => Except.ok (rowToUser r)

/-- `GetOne` (models.go lines 140-177): its own deadline context; selects the
row whose `id` column equals the argument. -/
def GetOne (db : Db) (lat : Nat) (id : Nat) : Except SqlErr User :=
  if dbTimeOut ≤ lat then Except.error SqlErr.timeout
  else
    match db.rows.find? (fun r => r.id == id) with
    | none => Except.error SqlErr.notFound
    | some r => Except.ok (rowToUser r)

/-- `Update` (models.go lines 181-208): its own deadline context; the SET list
of its statement writes exactly the columns `email`, `first_name`,
`last_name`, `user_active` and `updated_at` (the latter to `time.Now()`)
on the rows whose `id` matches the receiver. -/
def Update (db : Db) (lat : Nat) (u : User) (now : Nat) : Except SqlErr Db :=
  if dbTimeOut ≤ lat then Except.error SqlErr.timeout
  else Except.ok
    { db with
      rows := db.rows.map fun r =>
        if r.id = u.ID then
          { r with email := u.Email, first_name := u.FirstName, last_name := u.LastName,
                   user_active := u.Active, updated_at := now }
        else r }

/-- `Delete` (models.go lines 212-224): deletes the receiver's row by id under
its own deadline context. -/
def Delete (db : Db) (lat : Nat) (u : User) : Except SqlErr Db :=
  if dbTimeOut ≤ lat then Except.error SqlErr.timeout
  else Except.ok { db with rows := db.rows.filter fun r => r.id != u.ID }

/-- `DeleteByID` (models.go lines 227-239): deletes the row with the given id
under its own deadline context. -/
def DeleteByID (db : Db) (lat : Nat) (id : Nat) : Except SqlErr Db :=
  if dbTimeOut ≤ lat then Except.error SqlErr.timeout
  else Except.ok { db with rows := db.rows.filter fun r => r.id != id }

/-- `Insert` (models.go lines 241-279): hashes `user.Password` with
`bcrypt.GenerateFromPassword(..., 12)` before writing, stamps both
`created_at` and `updated_at` with the same `time.Now()` value, inserts
the row under its own deadline context and returns the id the database
assigned (`returning id`).  The insert statement can also fail without a
deadline expiry: its `Scan` error is returned as `(0, err)` (models.go
lines 274-276).  Modelled from the spec: the `users` table schema is not
under src/; §6 declares `email unique`, so a duplicate email is the
uniqueness violation the database reports, the `Conflict` of §4.2/§4.3. -/
def Insert (db : Db) (salt now lat : Nat) (user : User) : Except SqlErr (Nat × Db) :=
  let hashedPassword := bcryptGenerateFromPassword salt 12 user.Password.content
  if dbTimeOut ≤ lat then Except.error SqlErr.timeout
  else if db.rows.any (fun r => r.email == user.Email) then Except.error SqlErr.conflict
  else
    let row : Row :=
      { id := db.nextId, email := user.Email, first_name := user.FirstName,
        last_name := user.LastName, password := hashedPassword,
        user_active := user.Active, created_at := now, updated_at := now }
    Except.ok (db.nextId, { rows := db.rows ++ [row], nextId := db.nextId + 1 })

/-- `ResetPassword` (models.go lines 283-300): re-hashes the new plaintext
with cost 12 and writes only the `password` column of the receiver's row,
under its own deadline context. -/
def ResetPassword (db : Db) (lat salt : Nat) (u : User) (password : String) : Except SqlErr Db :=
  if dbTimeOut ≤ lat then Except.error SqlErr.timeout
  else Except.ok
    { db with
      rows := db.rows.map fun r =>
        if r.id = u.ID then { r with password := bcryptGenerateFromPassword salt 12 password }
        else r }

/-- `PasswordMatches` (models.go lines 302-314): compares the stored hash with
the plaintext; `ErrMismatchedHashAndPassword` becomes `(false, nil)`, any
other bcrypt error is returned, a match gives `(true, nil)`. -/
def PasswordMatches (u : User) (plainText : String) : Bool × Option BcryptErr :=
  match bcryptCompareHashAndPassword u.Password plainText with
  | some e =>
    match e with
    | BcryptErr.mismatchedHashAndPassword => (false, none)
    | _ => (false, some e)
  | none => (true, none)

/-- The authenticate request payload `{email, password}`. -/
structure AuthPayload where
  email : String
  password : String
deriving DecidableEq, Repr

/-- The register request payload `{email, password, firstname, lastname, active}`. -/
structure RegPayload where
  email : String
  password : String
  firstname : String
  lastname : String
  active : Bool
deriving DecidableEq, Repr

/-- Modelled from the spec: `readJson` lives in helpers.go, which is not part
of the given sources.  Per §4.3 step 1 the service rejects with `BadRequest`
a payload that fails structural validation (malformed body, missing/empty
required fields); the inbound body is `none` when it is not valid JSON. -/
def readJsonAuth (body : Option AuthPayload) : Except String AuthPayload :=
  match body with
  | none => Except.error "malformed request body"
  | some p =>
    if p.email = "" then Except.error "email is required"
    else if p.password = "" then Except.error "password is required"
    else Except.ok p

/-- Modelled from the spec: structural validation of the register payload
(§4.3 "Structural validation as above"); `firstName`/`lastName` are
optional display strings (§3). -/
def readJsonReg (body : Option RegPayload) : Except String RegPayload :=
  match body with
  | none => Except.error "malformed request body"
  | some p =>
    if p.email = "" then Except.error "email is required"
    else if p.password = "" then Except.error "password is required"
    else Except.ok p

/-- A JSON envelope written to the client: an error envelope
`(error: true, message, status)` or the success envelope
`(error: false, message, data: user, status)`. -/
inductive Response where
  | err (msg : String) (status : Nat)
  | success (msg : String) (u : User) (status : Nat)
deriving DecidableEq, Repr

/-- The observable steps of one handler execution: collaborator calls in
program order, plus every envelope written to the response writer. -/
inductive Ev where
  | lookupEmail (email : String)
  | getOneCall (id : Nat)
  | insertCall (u : User)
  | verifyCall (password : String)
  | notifyCall (name data : String)
  | respond (r : Response)
deriving DecidableEq, Repr

/-- `logRequest` (handlers file lines 56-81): marshals `{name, data}` and
POSTs it once to the logger service, returning the transport error if the
request cannot be built or delivered and `nil` otherwise.  The HTTP
transport is external; its availability is the `transportDown` flag. -/
def logRequest (name data : String) (transportDown : Bool) : Option String :=
  if transportDown then some ("Post to logger-service failed: " ++ name ++ " " ++ data)
  else none

/-- Modelled from the spec: `errorJson` (helpers.go, not in the given sources)
defaults to the 400-class failure status of §6 when called without an
explicit status, as `Authenticate` does on a notifier failure. -/
def errorJsonDefaultStatus : Nat := 400

/-- `Authenticate` (handlers file lines 13-54), translated statement by
statement: read/validate the payload (reject 400), `GetByEmail` (reject
"Invalid credentials 1" 400 on any error), `logRequest` (reject with the
transport error on failure), `PasswordMatches` (write "Invalid
credentials 2" 400 on error or mismatch, with no early return), then the
success envelope with status 202. -/
def authenticate (body : Option AuthPayload) (db : Db) (lat : Nat) (notifierDown : Bool) :
    List Ev :=
  match readJsonAuth body with
  | Except.error e => [Ev.respond (Response.err e 400)]
  | Except.ok payload =>
    Ev.lookupEmail payload.email ::
      match GetByEmail db lat payload.email with
      | Except.error _ => [Ev.respond (Response.err "Invalid credentials 1" 400)]
      | Except.ok user =>
        Ev.notifyCall "authentication" (user.Email ++ " logged in") ::
          match logRequest "authentication" (user.Email ++ " logged in") notifierDown with
          | some e => [Ev.respond (Response.err e errorJsonDefaultStatus)]
          | none =>
            Ev.verifyCall payload.password ::
              (let vm := PasswordMatches user payload.password
               (if vm.2.isSome || !vm.1 then
                  [Ev.respond (Response.err "Invalid credentials 2" 400)]
                else []) ++
                [Ev.respond (Response.success ("Logged in user " ++ user.Email) user 202)])

/-- `Register` (handlers file lines 83-125), translated statement by
statement: read/validate the payload (reject 400), build the new user
from the payload with the plaintext in its `Password` field, `Insert`
(reject 500 on error), `GetOne` on the new id (reject 500 on error), then
the success envelope with status 202. -/
def register (body : Option RegPayload) (db : Db) (salt now insLat getLat : Nat) : List Ev :=
  match readJsonReg body with
  | Except.error e => [Ev.respond (Response.err e 400)]
  | Except.ok p =>
    let newUser : User :=
      { ID := 0, Email := p.email, FirstName := p.firstname, LastName := p.lastname,
        Password := PwVal.plain p.password, Active := p.active, CreatedAt := 0, UpdatedAt := 0 }
    Ev.insertCall newUser ::
      match Insert db salt now insLat newUser with
      | Except.error _ => [Ev.respond (Response.err "Unable to insert user into database" 500)]
      | Except.ok (userID, db2) =>
        Ev.getOneCall userID ::
          match GetOne db2 getLat userID with
          | Except.error _ => [Ev.respond (Response.err "User not found after insert" 500)]
          | Except.ok user =>
            [Ev.respond (Response.success ("User " ++ user.Email ++ " successfully registered")
              user 202)]

/-- A serialized JSON value of a user field. -/
inductive Jv where
  | num (n : Nat)
  | str (s : String)
  | bool (b : Bool)
  | pw (v : PwVal)
deriving DecidableEq, Repr

/-- `encoding/json` marshalling of `data.User` under its struct tags
(models.go lines 36-45): `id`, `email`, `first_name`/`last_name` with
`omitempty`, `active`; `Password` carries `json:"-"` and is never
emitted; the `created_at`/`updated_at` tags are malformed (missing
quotes), so those fields marshal under their Go field names. -/
def marshalUser (u : User) : List (String × Jv) :=
  [("id", Jv.num u.ID), ("email", Jv.str u.Email)] ++
    (if u.FirstName = "" then [] else [("first_name", Jv.str u.FirstName)]) ++
    (if u.LastName = "" then [] else [("last_name", Jv.str u.LastName)]) ++
    [("active", Jv.bool u.Active), ("CreatedAt", Jv.num u.CreatedAt),
     ("UpdatedAt", Jv.num u.UpdatedAt)]

/-- The serialized `data` field of an envelope: the marshalled user for the
success envelope, nothing for an error envelope. -/
def dataFields (r : Response) : List (String × Jv) :=
  match r with
  | Response.err _ _ => []
  | Response.success _ u _ => marshalUser u

/-- Replace the `Password` field of the user carried by a response. -/
def scrubResp (x : PwVal) (r : Response) : Response :=
  match r with
  | Response.err m s => Response.err m s
  | Response.success m u s => Response.success m { u with Password := x } s

/-- True on a serialized field that carries a password value. -/
def fieldIsHash (kv : String × Jv) : Bool :=
  match kv.2 with
  | Jv.pw _ => true
  | _ => false

/-- The envelopes a handler execution writes, in order. -/
def responsesOf (t : List Ev) : List Response :=
  t.filterMap fun e =>
    match e with
    | Ev.respond r => some r
    | _ => none

/-- True on an `Ev.verifyCall` event. -/
def isVerifyEv : Ev → Bool
  | Ev.verifyCall _ => true
  | _ => false

/-- Fixture: the stored row of a registered user `a@x.com` whose password is
the bcrypt hash of "secret". -/
def r1 : Row :=
  { id := 1, email := "a@x.com", first_name := "A", last_name := "B",
    password := PwVal.hashed 7 12 "secret", user_active := true,
    created_at := 0, updated_at := 0 }

/-- Fixture: a store holding exactly the user `a@x.com`. -/
def db1 : Db := { rows := [r1], nextId := 2 }

/-- Fixture: the `data.User` value read back for `a@x.com`. -/
def u1 : User := rowToUser r1

/-- Fixture: an empty store whose next insert gets id 1. -/
def db0 : Db := { rows := [], nextId := 1 }

/-- Fixture: a new user as `Register` builds it, plaintext still in `Password`. -/
def u0 : User :=
  { ID := 0, Email := "c@z.com", FirstName := "C", LastName := "D",
    Password := PwVal.plain "pw", Active := true, CreatedAt := 0, UpdatedAt := 0 }

/-- Serialization ignores the `Password` field: scrubbing the user carried by
a response does not change its serialized data. -/
theorem dataFields_scrubResp (x : PwVal) (r : Response) :
    dataFields (scrubResp x r) = dataFields r := by
  cases r <;> rfl

/-- No serialized user field carries a password value. -/
theorem dataFields_no_hash (r : Response) :
    (dataFields r).all (fun kv => !fieldIsHash kv) = true := by
  cases r with
  | err m s => rfl
  | success m u s =>
    show (marshalUser u).all (fun kv => !fieldIsHash kv) = true
    rcases eq_or_ne u.FirstName "" with h1 | h1 <;>
      rcases eq_or_ne u.LastName "" with h2 | h2 <;>
        simp [marshalUser, fieldIsHash, h1, h2]

end Auth

namespace Auth

/-- C1: the claim says a failure of the Activity Notifier call never turns an
otherwise-successful authentication into a failure.  On the code it does:
for the registered user `a@x.com` with its correct password "secret"
(verification would succeed, second conjunct), a notifier transport
failure makes `Authenticate` write only an error envelope and never the
success envelope. -/
theorem c1_notifier_failure_flips_success :
    authenticate (some { email := "a@x.com", password := "secret" }) db1 0 true =
      [Ev.lookupEmail "a@x.com", Ev.notifyCall "authentication" "a@x.com logged in",
       Ev.respond (Response.err
         "Post to logger-service failed: authentication a@x.com logged in" 400)] ∧
    PasswordMatches u1 "secret" = (true, none) ∧
    responsesOf (authenticate (some { email := "a@x.com", password := "secret" }) db1 0 true) =
      [Response.err "Post to logger-service failed: authentication a@x.com logged in" 400] := by
  refine ⟨rfl, rfl, rfl⟩

/-- C2: the claim says that on a password mismatch the handler halts after the
rejection, producing exactly the one rejection envelope.  On the code the
mismatch branch has no early return: for `a@x.com` with the wrong
password "wrong", `Authenticate` writes the rejection and then also the
success envelope carrying the user. -/
theorem c2_mismatch_writes_two_responses :
    responsesOf (authenticate (some { email := "a@x.com", password := "wrong" }) db1 0 false) =
      [Response.err "Invalid credentials 2" 400,
       Response.success "Logged in user a@x.com" u1 202] ∧
    Response.success "Logged in user a@x.com" u1 202 ∈
      responsesOf (authenticate (some { email := "a@x.com", password := "wrong" }) db1 0 false) := by
  refine ⟨rfl, by decide⟩

/-- C3: the claim says a wrong password against an existing email and a
lookup on a non-existent email yield indistinguishable responses.  On the
code they differ: the wrong-password run writes "Invalid credentials 2"
followed by the success envelope, while the unknown-email run writes only
"Invalid credentials 1", so the two response sequences are unequal and
the client can tell whether the email exists. -/
theorem c3_enumeration_distinguishable :
    responsesOf (authenticate (some { email := "a@x.com", password := "wrong" }) db1 0 false) =
      [Response.err "Invalid credentials 2" 400,
       Response.success "Logged in user a@x.com" u1 202] ∧
    responsesOf (authenticate (some { email := "b@y.com", password := "wrong" }) db1 0 false) =
      [Response.err "Invalid credentials 1" 400] ∧
    responsesOf (authenticate (some { email := "a@x.com", password := "wrong" }) db1 0 false) ≠
      responsesOf (authenticate (some { email := "b@y.com", password := "wrong" }) db1 0 false) := by
  refine ⟨rfl, rfl, by decide⟩

/-- C6 counterexample: the claim says the notifier is called only after
password verification has succeeded, so no "logged in" event is emitted
for a request that fails verification.  On the code the notify call
precedes verification: for `a@x.com` with the wrong password "wrong",
verification fails (first conjunct) yet the trace contains the
"a@x.com logged in" notify call, at position 1, before the verify call at
position 2. -/
theorem c6_notify_despite_failed_verification :
    PasswordMatches u1 "wrong" = (false, none) ∧
    Ev.notifyCall "authentication" "a@x.com logged in" ∈
      authenticate (some { email := "a@x.com", password := "wrong" }) db1 0 false ∧
    authenticate (some { email := "a@x.com", password := "wrong" }) db1 0 false =
      [Ev.lookupEmail "a@x.com", Ev.notifyCall "authentication" "a@x.com logged in",
       Ev.verifyCall "wrong", Ev.respond (Response.err "Invalid credentials 2" 400),
       Ev.respond (Response.success "Logged in user a@x.com" u1 202)] := by
  refine ⟨rfl, by decide, rfl⟩

/-- C6 amended: in every execution of `Authenticate` whose payload is valid
and whose email lookup succeeds, the Activity Notifier call is the second
step, immediately after the lookup and before any password-verification
call (every verify event sits at position at least 2), so a "logged in"
event can be emitted for a request whose verification then fails. -/
theorem c6_notify_after_lookup_before_verify (body : Option AuthPayload) (db : Db) (lat : Nat)
    (nf : Bool) (p : AuthPayload) (u : User)
    (hp : readJsonAuth body = Except.ok p)
    (hu : GetByEmail db lat p.email = Except.ok u) :
    (authenticate body db lat nf).take 2 =
      [Ev.lookupEmail p.email, Ev.notifyCall "authentication" (u.Email ++ " logged in")] ∧
    2 ≤ (authenticate body db lat nf).findIdx isVerifyEv := by
  have ht : authenticate body db lat nf =
      Ev.lookupEmail p.email ::
        Ev.notifyCall "authentication" (u.Email ++ " logged in") ::
          (match logRequest "authentication" (u.Email ++ " logged in") nf with
           | some e => [Ev.respond (Response.err e errorJsonDefaultStatus)]
           | none =>
             Ev.verifyCall p.password ::
               (let vm := PasswordMatches u p.password
                (if vm.2.isSome || !vm.1 then
                   [Ev.respond (Response.err "Invalid credentials 2" 400)]
                 else []) ++
                 [Ev.respond (Response.success ("Logged in user " ++ u.Email) u 202)])) := by
    simp only [authenticate, hp, hu]
  rw [ht]
  constructor
  · rfl
  · simp only [List.findIdx_cons, isVerifyEv, cond_false]
    omega

/-- C6 amended, witness at a concrete input: the registered user `a@x.com`
authenticated with its correct password. -/
theorem c6_notify_after_lookup_before_verify_witness :
    readJsonAuth (some { email := "a@x.com", password := "secret" }) =
      Except.ok { email := "a@x.com", password := "secret" } ∧
    GetByEmail db1 0 "a@x.com" = Except.ok u1 ∧
    ((authenticate (some { email := "a@x.com", password := "secret" }) db1 0 false).take 2 =
      [Ev.lookupEmail "a@x.com", Ev.notifyCall "authentication" ("a@x.com" ++ " logged in")] ∧
     2 ≤ (authenticate (some { email := "a@x.com", password := "secret" }) db1 0 false).findIdx
        isVerifyEv) :=
  ⟨rfl, rfl,
    c6_notify_after_lookup_before_verify (some { email := "a@x.com", password := "secret" })
      db1 0 false { email := "a@x.com", password := "secret" } u1 rfl rfl⟩

/-- C4: for every response produced by `Authenticate` or `Register`, the
serialized user data never contains the stored password hash: the
serialized data of every envelope is unchanged when the carried user's
`Password` field is replaced by anything, and no serialized field is a
password value — the `json:"-"` tag excludes the field from the public
projection. -/
theorem c4_responses_exclude_password_hash (body : Option AuthPayload) (bodyR : Option RegPayload)
    (db : Db) (lat : Nat) (nf : Bool) (salt now insLat getLat : Nat) (x : PwVal) :
    (responsesOf (authenticate body db lat nf)).map (fun r => dataFields (scrubResp x r)) =
      (responsesOf (authenticate body db lat nf)).map dataFields ∧
    (responsesOf (register bodyR db salt now insLat getLat)).map
        (fun r => dataFields (scrubResp x r)) =
      (responsesOf (register bodyR db salt now insLat getLat)).map dataFields ∧
    ((responsesOf (authenticate body db lat nf)).map dataFields).all
      (fun l => l.all fun kv => !fieldIsHash kv) = true ∧
    ((responsesOf (register bodyR db salt now insLat getLat)).map dataFields).all
      (fun l => l.all fun kv => !fieldIsHash kv) = true := by
  have key : (fun r => dataFields (scrubResp x r)) = dataFields :=
    funext (dataFields_scrubResp x)
  refine ⟨by rw [key], by rw [key], ?_, ?_⟩ <;>
    · refine List.all_eq_true.mpr ?_
      intro l hl
      obtain ⟨r, _, rfl⟩ := List.mem_map.mp hl
      exact dataFields_no_hash r

/-- C5: verifying a plaintext against the bcrypt hash that `Insert` produces
for it (`bcrypt.GenerateFromPassword` at cost 12) succeeds, and verifying
any different plaintext against that hash returns false with no error,
for every non-empty plaintext. -/
theorem c5_password_roundtrip (u : User) (salt : Nat) (p q : String)
    (hp : p ≠ "") (hq : q ≠ p) :
    PasswordMatches { u with Password := bcryptGenerateFromPassword salt 12 p } p =
      (true, none) ∧
    PasswordMatches { u with Password := bcryptGenerateFromPassword salt 12 p } q =
      (false, none) := by
  constructor
  · simp [PasswordMatches, bcryptCompareHashAndPassword, bcryptGenerateFromPassword]
  · simp [PasswordMatches, bcryptCompareHashAndPassword, bcryptGenerateFromPassword, hq]

/-- C5, witness at a concrete input: the hash of "secret" verifies "secret"
and rejects "wrong" without an error. -/
theorem c5_password_roundtrip_witness :
    "secret" ≠ "" ∧ "wrong" ≠ "secret" ∧
    (PasswordMatches { u1 with Password := bcryptGenerateFromPassword 7 12 "secret" } "secret" =
       (true, none) ∧
     PasswordMatches { u1 with Password := bcryptGenerateFromPassword 7 12 "secret" } "wrong" =
       (false, none)) :=
  ⟨by decide, by decide, c5_password_roundtrip u1 7 "secret" "wrong" (by decide) (by decide)⟩

/-- C7: when the insert completes inside its deadline and the email does not
collide with a stored row (otherwise `Insert` surfaces the uniqueness
`Conflict` and assigns no id), `Insert` appends a row whose `password`
column is the Password-Hasher output for the provided password (cost 12)
— a hash, never raw input — whose `created_at` and `updated_at` both
equal the current time, and it returns the newly assigned id. -/
theorem c7_insert_hashes_and_stamps (db : Db) (salt now lat : Nat) (user : User)
    (h : lat < dbTimeOut)
    (hdup : db.rows.any (fun r => r.email == user.Email) = false) :
    Insert db salt now lat user =
      Except.ok (db.nextId,
        { rows := db.rows ++
            [{ id := db.nextId, email := user.Email, first_name := user.FirstName,
               last_name := user.LastName,
               password := bcryptGenerateFromPassword salt 12 user.Password.content,
               user_active := user.Active, created_at := now, updated_at := now }],
          nextId := db.nextId + 1 }) ∧
    (bcryptGenerateFromPassword salt 12 user.Password.content).isHashed = true := by
  refine ⟨?_, rfl⟩
  simp [Insert, Nat.not_le.mpr h, hdup]

/-- C7, witness at a concrete input: inserting the new user `c@z.com` into the
empty store with salt 3 at time 5 and latency 0. -/
theorem c7_insert_hashes_and_stamps_witness :
    0 < dbTimeOut ∧
    db0.rows.any (fun r => r.email == u0.Email) = false ∧
    (Insert db0 3 5 0 u0 =
      Except.ok (1,
        { rows := [{ id := 1, email := "c@z.com", first_name := "C", last_name := "D",
                     password := PwVal.hashed 3 12 "pw", user_active := true,
                     created_at := 5, updated_at := 5 }],
          nextId := 2 }) ∧
     (bcryptGenerateFromPassword 3 12 (PwVal.content u0.Password)).isHashed = true) :=
  ⟨by decide, rfl, c7_insert_hashes_and_stamps db0 3 5 0 u0 (by decide) rfl⟩

/-- C8: a payload that fails structural validation (malformed, or a missing or
empty email or password) makes `Authenticate` and `Register` write the
`BadRequest` rejection as the whole of their execution: the trace holds
no lookup, insert, read-back, verify or notify event, so no store or
hasher call is made. -/
theorem c8_bad_payload_rejected_before_store (body : Option AuthPayload)
    (bodyR : Option RegPayload) (db : Db) (lat : Nat) (nf : Bool)
    (salt now insLat getLat : Nat) (eA eR : String)
    (hA : readJsonAuth body = Except.error eA)
    (hR : readJsonReg bodyR = Except.error eR) :
    authenticate body db lat nf = [Ev.respond (Response.err eA 400)] ∧
    register bodyR db salt now insLat getLat = [Ev.respond (Response.err eR 400)] := by
  constructor
  · simp [authenticate, hA]
  · simp [register, hR]

/-- Fixture: a register payload with an empty password. -/
def regNoPw : RegPayload :=
  { email := "a@x.com", password := "", firstname := "C", lastname := "D", active := true }

/-- C8, witness at concrete inputs: an authenticate payload with an empty
email and a register payload with an empty password. -/
theorem c8_bad_payload_rejected_before_store_witness :
    readJsonAuth (some { email := "", password := "secret" }) =
      Except.error "email is required" ∧
    readJsonReg (some regNoPw) = Except.error "password is required" ∧
    (authenticate (some { email := "", password := "secret" }) db1 0 false =
       [Ev.respond (Response.err "email is required" 400)] ∧
     register (some regNoPw) db1 3 5 0 0 =
       [Ev.respond (Response.err "password is required" 400)]) :=
  ⟨rfl, rfl,
    c8_bad_payload_rejected_before_store (some { email := "", password := "secret" })
      (some regNoPw) db1 0 false 3 5 0 0 "email is required" "password is required" rfl rfl⟩

/-- C9: every store operation runs under its own `dbTimeOut` deadline; once
the underlying call's latency reaches the deadline, each of `GetAll`,
`GetByEmail`, `GetOne`, `Insert`, `Update`, `Delete`, `DeleteByID` and
`ResetPassword` returns the `Timeout` error to its caller instead of a
result. -/
theorem c9_store_ops_timeout (db : Db) (u user : User) (id salt now lat : Nat)
    (email pw : String) (h : dbTimeOut ≤ lat) :
    GetAll db lat = Except.error SqlErr.timeout ∧
    GetByEmail db lat email = Except.error SqlErr.timeout ∧
    GetOne db lat id = Except.error SqlErr.timeout ∧
    Insert db salt now lat user = Except.error SqlErr.timeout ∧
    Update db lat u now = Except.error SqlErr.timeout ∧
    Delete db lat u = Except.error SqlErr.timeout ∧
    DeleteByID db lat id = Except.error SqlErr.timeout ∧
    ResetPassword db lat salt u pw = Except.error SqlErr.timeout := by
  refine ⟨?_, ?_, ?_, ?_, ?_, ?_, ?_, ?_⟩ <;>
    simp [GetAll, GetByEmail, GetOne, Insert, Update, Delete, DeleteByID, ResetPassword, h]

/-- C9, witness at a concrete input: a call whose latency equals the deadline
times out on every operation. -/
theorem c9_store_ops_timeout_witness :
    dbTimeOut ≤ dbTimeOut ∧
    (GetAll db1 dbTimeOut = Except.error SqlErr.timeout ∧
     GetByEmail db1 dbTimeOut "a@x.com" = Except.error SqlErr.timeout ∧
     GetOne db1 dbTimeOut 1 = Except.error SqlErr.timeout ∧
     Insert db1 3 5 dbTimeOut u0 = Except.error SqlErr.timeout ∧
     Update db1 dbTimeOut u1 5 = Except.error SqlErr.timeout ∧
     Delete db1 dbTimeOut u1 = Except.error SqlErr.timeout ∧
     DeleteByID db1 dbTimeOut 1 = Except.error SqlErr.timeout ∧
     ResetPassword db1 dbTimeOut 3 u1 "pw" = Except.error SqlErr.timeout) :=
  ⟨Nat.le_refl _, c9_store_ops_timeout db1 u1 u0 1 3 5 dbTimeOut "a@x.com" "pw" (Nat.le_refl _)⟩

/-- C10: `Update` writes only the `email`, `first_name`, `last_name`,
`user_active` and `updated_at` columns of the matching row and leaves
every other row untouched, so `password`, `created_at` and `id` survive
every `Update`; the password column is rewritten only by the hashing
paths, as `ResetPassword` (which replaces exactly the `password` column
of the matching row) illustrates. -/
theorem c10_update_frame (db : Db) (lat : Nat) (u : User) (now salt : Nat) (pw : String)
    (db2 db3 : Db) (i : Nat) (r r2 r3 : Row)
    (hU : Update db lat u now = Except.ok db2)
    (hP : ResetPassword db lat salt u pw = Except.ok db3)
    (hr : db.rows[i]? = some r)
    (hr2 : db2.rows[i]? = some r2)
    (hr3 : db3.rows[i]? = some r3) :
    db2.nextId = db.nextId ∧ db2.rows.length = db.rows.length ∧
    r2 = (if r.id = u.ID then
            { r with email := u.Email, first_name := u.FirstName, last_name := u.LastName,
                     user_active := u.Active, updated_at := now }
          else r) ∧
    r2.id = r.id ∧ r2.password = r.password ∧ r2.created_at = r.created_at ∧
    r3 = (if r.id = u.ID then { r with password := bcryptGenerateFromPassword salt 12 pw }
          else r) ∧
    r3.id = r.id ∧ r3.email = r.email ∧ r3.created_at = r.created_at ∧
    r3.updated_at = r.updated_at := by
  rw [Update] at hU
  rw [ResetPassword] at hP
  split at hU
  · exact absurd hU (by simp)
  rw [Except.ok.injEq] at hU
  split at hP
  · exact absurd hP (by simp)
  rw [Except.ok.injEq] at hP
  subst hU
  subst hP
  rw [List.getElem?_map, hr, Option.map_some', Option.some.injEq] at hr2 hr3
  subst hr2
  subst hr3
  refine ⟨rfl, by simp, rfl, ?_, ?_, ?_, rfl, ?_, ?_, ?_, ?_⟩ <;>
    · by_cases hid : r.id = u.ID <;> simp [hid]

/-- Fixture: the update data for user id 1: new email, names and active flag. -/
def u1new : User :=
  { ID := 1, Email := "n@x.com", FirstName := "N", LastName := "M",
    Password := PwVal.plain "zzz", Active := false, CreatedAt := 0, UpdatedAt := 0 }

/-- Fixture: the row of user 1 after `Update` with `u1new` at time 9. -/
def r1upd : Row :=
  { id := 1, email := "n@x.com", first_name := "N", last_name := "M",
    password := PwVal.hashed 7 12 "secret", user_active := false,
    created_at := 0, updated_at := 9 }

/-- Fixture: `db1` after `Update` with `u1new` at time 9. -/
def db1upd : Db := { rows := [r1upd], nextId := 2 }

/-- Fixture: the row of user 1 after `ResetPassword` to "npw" with salt 3. -/
def r1rp : Row := { r1 with password := PwVal.hashed 3 12 "npw" }

/-- Fixture: `db1` after `ResetPassword` to "npw" with salt 3. -/
def db1rp : Db := { rows := [r1rp], nextId := 2 }

/-- C10, witness at a concrete input: updating user 1 of `db1` and resetting
its password, then reading back row 0. -/
theorem c10_update_frame_witness :
    Update db1 0 u1new 9 = Except.ok db1upd ∧
    ResetPassword db1 0 3 u1new "npw" = Except.ok db1rp ∧
    db1.rows[0]? = some r1 ∧
    db1upd.rows[0]? = some r1upd ∧
    db1rp.rows[0]? = some r1rp ∧
    (db1upd.nextId = db1.nextId ∧ db1upd.rows.length = db1.rows.length ∧
     r1upd = (if r1.id = u1new.ID then
         { r1 with email := u1new.Email, first_name := u1new.FirstName,
                   last_name := u1new.LastName, user_active := u1new.Active, updated_at := 9 }
       else r1) ∧
     r1upd.id = r1.id ∧ r1upd.password = r1.password ∧ r1upd.created_at = r1.created_at ∧
     r1rp = (if r1.id = u1new.ID then
         { r1 with password := bcryptGenerateFromPassword 3 12 "npw" } else r1) ∧
     r1rp.id = r1.id ∧ r1rp.email = r1.email ∧ r1rp.created_at = r1.created_at ∧
     r1rp.updated_at = r1.updated_at) :=
  ⟨rfl, rfl, rfl, rfl, rfl,
    c10_update_frame db1 0 u1new 9 3 "npw" db1upd db1rp 0 r1 r1upd r1rp rfl rfl rfl rfl rfl⟩

end Auth
